import Mathlib

/-!
Verification of the session-validation engine of the repository
(`src/utils/validationUtils.ts` and the validation pages): the field
resolver `getFieldValue` / `getNestedProperty`, the rule evaluator
`validateRule`, and the runner loops (`validateSessionsCore`,
`handleRunValidationCore`).

JavaScript runtime values are embedded as the inductive `JsValue`;
host primitives whose exact behaviour lives outside the repository
(number formatting, string-to-number parsing, `RegExp` compilation,
`Date` parsing, local-time calendar decomposition) are collected in
the `JsPrims` parameter, so theorems quantified over `JsPrims` hold
for every host behaviour.  A thrown exception is modelled as
`Except.error ()`.
-/

set_option maxHeartbeats 1000000

/-- A JavaScript runtime value: `null`, `undefined`, the number `NaN`,
booleans, finite numbers (as rationals), strings, plain objects
(association lists) and arrays. -/
inductive JsValue where
  | null
  | undefined
  | nan
  | bool (b : Bool)
  | num (q : ℚ)
  | str (s : String)
  | obj (fields : List (String × JsValue))
  | arr (elems : List JsValue)
deriving Repr

/-- The test `v === null || v === undefined` (and its negation
`v !== undefined && v !== null`) used by the existence checks and the
nullish patterns. -/
def isMissing : JsValue → Bool
  | .null => true
  | .undefined => true
  | _ => false

/-- JavaScript truthiness: `null`, `undefined`, `NaN`, `false`, `0` and
the empty string are falsy; objects and arrays are always truthy. -/
def jsTruthy : JsValue → Bool
  | .null => false
  | .undefined => false
  | .nan => false
  | .bool b => b
  | .num q => decide (q ≠ 0)
  | .str s => decide (s ≠ "")
  | .obj _ => true
  | .arr _ => true

/-- Property access `v[k]`: a key lookup on an object, `undefined` on
absent keys and on every non-object value (built-in prototype
properties of primitives are not modelled). -/
def jsGet : JsValue → String → JsValue
  | .obj fields, k =>
    match fields.find? (fun kv => kv.1 == k) with
    | some kv => kv.2
    | none => .undefined
  | _, _ => .undefined

/-- The nullish coalescing pattern `x ?? null` used throughout
`getFieldValue`. -/
def nullish (v : JsValue) : JsValue :=
  if isMissing v then .null else v

/-- Optional chaining `v?.k`: `undefined` when `v` is `null` or
`undefined`, otherwise a property access. -/
def optChain (v : JsValue) (k : String) : JsValue :=
  if isMissing v then .undefined else jsGet v k

/-- Strict equality `v === s` against a known string operand. -/
def jsStrictEqStr (v : JsValue) (s : String) : Bool :=
  match v with
  | .str t => t == s
  | _ => false

/-- Host primitives of the JavaScript engine that the repository calls
but does not define: their exact behaviour is a parameter of the
embedding. -/
structure JsPrims where
  /-- `String(q)` for a finite number `q`. -/
  numToString : ℚ → String
  /-- `Number(s)` for a string `s`; `none` models `NaN`. -/
  strToNum : String → Option ℚ
  /-- `parseFloat(s)`; `none` models `NaN`. -/
  parseFloatStr : String → Option ℚ
  /-- `new RegExp(s)`: `none` when the pattern is syntactically
  invalid (the constructor throws), otherwise the compiled test. -/
  regexCompile : String → Option (String → Bool)
  /-- `new Date(v).getTime()`; `none` models an invalid date (`NaN`). -/
  dateFrom : JsValue → Option ℚ
  /-- Local-time `(getFullYear, getMonth, getDate)` of an epoch
  timestamp. -/
  civil : ℚ → ℤ × ℤ × ℤ

mutual

/-- JavaScript `String(v)` coercion. -/
def jsToString (p : JsPrims) : JsValue → String
  | .null => "null"
  | .undefined => "undefined"
  | .nan => "NaN"
  | .bool b => if b then "true" else "false"
  | .num q => p.numToString q
  | .str s => s
  | .obj _ => "[object Object]"
  | .arr l => String.intercalate "," (jsArrElemStrings p l)

/-- Array elements joined by `Array.prototype.toString`: `null` and
`undefined` elements print as the empty string. -/
def jsArrElemStrings (p : JsPrims) : List JsValue → List String
  | [] => []
  | v :: vs =>
    (if isMissing v then "" else jsToString p v) :: jsArrElemStrings p vs

end

/-- JavaScript `Number(v)` coercion; `none` models `NaN`.  An array of
two or more elements stringifies with a comma, which no numeric
literal contains, hence always `NaN`. -/
def toNumber (p : JsPrims) : JsValue → Option ℚ
  | .null => some 0
  | .undefined => none
  | .nan => none
  | .bool b => some (if b then 1 else 0)
  | .num q => some q
  | .str s => p.strToNum s
  | .obj _ => none
  | .arr [] => some 0
  | .arr [x] =>
    if isMissing x then some 0 else p.strToNum (jsToString p x)
  | .arr (_ :: _ :: _) => none

/-- JavaScript subtraction `a - b`: numeric coercion of both sides,
`NaN` when either fails. -/
def jsSub (p : JsPrims) (a b : JsValue) : JsValue :=
  match toNumber p a, toNumber p b with
  | some x, some y => .num (x - y)
  | _, _ => .nan

/-- JavaScript relational `a <= b`: lexicographic on two strings,
otherwise numeric with `NaN` comparisons false. -/
def jsLeB (p : JsPrims) (a b : JsValue) : Bool :=
  match a, b with
  | .str s, .str t => decide (s ≤ t)
  | a, b =>
    match toNumber p a, toNumber p b with
    | some x, some y => decide (x ≤ y)
    | _, _ => false

/-- Substring test `s.includes(t)`. -/
def jsIncludes (s t : String) : Bool :=
  decide (t.toList <:+: s.toList)

/-- Tuple destructuring `const [a, b] = v`: defined for iterables
(arrays and strings, padding with `undefined`), `none` when `v` is not
iterable (the statement throws a `TypeError`). -/
def jsDestructure2 : JsValue → Option (JsValue × JsValue)
  | .arr [] => some (.undefined, .undefined)
  | .arr [a] => some (a, .undefined)
  | .arr (a :: b :: _) => some (a, b)
  | .str s =>
    match s.toList with
    | [] => some (.undefined, .undefined)
    | [c] => some (.str (String.mk [c]), .undefined)
    | c1 :: c2 :: _ => some (.str (String.mk [c1]), .str (String.mk [c2]))
  | _ => none

/-- A fixed instantiation of the host primitives used to state closed
counterexamples and witnesses.  None of the concrete evaluations below
route a decision through these functions, so any other instantiation
gives the same verdicts there. -/
def defaultPrims : JsPrims where
  numToString _ := ""
  strToNum _ := none
  parseFloatStr _ := none
  regexCompile _ := none
  dateFrom _ := none
  civil _ := (0, 0, 0)

/-- Character-level worker for `jsSplitDot`. -/
def splitOnCharAux (c : Char) : List Char → List Char → List String
  | [], acc => [String.mk acc.reverse]
  | x :: xs, acc =>
    if x = c then String.mk acc.reverse :: splitOnCharAux c xs []
    else splitOnCharAux c xs (x :: acc)

/-- `path.split('.')` of JavaScript: splits on every dot, keeping empty
segments (`"a..b"` gives `["a", "", "b"]`, `"a"` gives `["a"]`). -/
def jsSplitDot (s : String) : List String :=
  splitOnCharAux '.' s.toList []

/-- Walk of `getNestedProperty`'s `for` loop: return `null` the moment
the current value is `null`/`undefined`, otherwise step into the next
key. -/
def getNestedWalk : JsValue → List String → JsValue
  | v, [] => v
  | v, k :: ks => if isMissing v then .null else getNestedWalk (jsGet v k) ks

/-- `getNestedProperty(obj, path)` of `src/utils/validationUtils.ts`:
guard `!obj || !path` (falsy object or empty path gives `null`), split
the path on `.` and walk the object key by key. -/
def getNestedProperty (o : JsValue) (path : String) : JsValue :=
  if !jsTruthy o || path == "" then .null
  else getNestedWalk o (jsSplitDot path)

/-- `getFieldValue(session, field)` of `src/utils/validationUtils.ts`:
the curated alias switch, falling back to `getNestedProperty` for any
other field. -/
def getFieldValue (p : JsPrims) (session : JsValue) (field : String) : JsValue :=
  match field with
  | "fps.min" => nullish (jsGet session "fpsMin")
  | "fps.max" => nullish (jsGet session "fpsMax")
  | "fps.median" => nullish (jsGet session "fpsMedian")
  | "fps.stability" => nullish (jsGet session "fpsStability")
  | "fps.onePercentLow" => nullish (jsGet session "fpsOnePercentLow")
  | "cpu.min" => nullish (jsGet session "cpuUsageMin")
  | "cpu.max" => nullish (jsGet session "cpuUsageMax")
  | "cpu.median" => nullish (jsGet session "cpuUsageMedian")
  | "cpu.avg" => nullish (jsGet session "cpuUsageAvg")
  | "cpu.total" => nullish (jsGet session "totalCpuUsageAvg")
  | "gpu.min" => nullish (jsGet session "gpuUsageMin")
  | "gpu.max" => nullish (jsGet session "gpuUsageMax")
  | "gpu.median" => nullish (jsGet session "gpuUsageMedian")
  | "gpu.avg" => nullish (jsGet session "gpuUsageAvg")
  | "memory.min" => nullish (jsGet session "memUsageMin")
  | "memory.max" => nullish (jsGet session "memUsageMax")
  | "memory.median" => nullish (jsGet session "memUsageMedian")
  | "memory.avg" => nullish (jsGet session "memUsageAvg")
  | "androidMemory.min" => nullish (jsGet session "androidMemUsageMin")
  | "androidMemory.max" => nullish (jsGet session "androidMemUsageMax")
  | "androidMemory.median" => nullish (jsGet session "androidMemUsageMedian")
  | "androidMemory.avg" => nullish (jsGet session "androidMemUsageAvg")
  | "battery.first" => nullish (jsGet session "firstBat")
  | "battery.last" => nullish (jsGet session "lastBat")
  | "battery.drain" =>
    if jsTruthy (jsGet session "firstBat") && jsTruthy (jsGet session "lastBat") then
      jsSub p (jsGet session "firstBat") (jsGet session "lastBat")
    else .null
  | "power.usage" => nullish (jsGet session "powerUsage")
  | "power.mWAvg" => nullish (jsGet session "mWAvg")
  | "power.mAh" => nullish (jsGet session "mAh")
  | "power.mAAvg" => nullish (jsGet session "mAAvg")
  | "janks.big.count" => nullish (jsGet session "bigJanksCount")
  | "janks.big.per10min" => nullish (jsGet session "bigJanks10Mins")
  | "janks.small.count" => nullish (jsGet session "smallJanksCount")
  | "janks.small.per10min" => nullish (jsGet session "smallJanks10Mins")
  | "janks.total.count" => nullish (jsGet session "janksCount")
  | "janks.total.per10min" => nullish (jsGet session "janks10Mins")
  | "app.size" => nullish (jsGet session "appSize")
  | "app.cache" => nullish (jsGet session "appCache")
  | "app.data" => nullish (jsGet session "appData")
  | "app.launchTime" => nullish (jsGet session "appLaunchTimeMs")
  | "app.name" => nullish (optChain (jsGet session "app") "name")
  | "app.packageName" => nullish (optChain (jsGet session "app") "packageName")
  | "app.version" => nullish (optChain (jsGet session "app") "version")
  | "app.versionCode" => nullish (optChain (jsGet session "app") "versionCode")
  | "device.model" => nullish (optChain (jsGet session "device") "model")
  | "device.manufacturer" => nullish (optChain (jsGet session "device") "manufacturer")
  | "device.memory.total" => nullish (jsGet session "totalDeviceMemory")
  | "device.battery.capacity" => nullish (optChain (jsGet session "device") "batteryCapacity")
  | "device.battery.voltage" => nullish (optChain (jsGet session "device") "batteryVoltage")
  | "device.screen.width" => nullish (optChain (jsGet session "device") "screenWidth")
  | "device.screen.height" => nullish (optChain (jsGet session "device") "screenHeight")
  | "device.screen.refreshRate" => nullish (optChain (jsGet session "device") "refreshRate")
  | "device.androidVersion" =>
    if jsTruthy (optChain (jsGet session "device") "androidVersionRelease") then
      match p.parseFloatStr (jsToString p (optChain (jsGet session "device") "androidVersionRelease")) with
      | some q => .num q
      | none => .nan
    else .null
  | "device.androidSdk" => nullish (optChain (jsGet session "device") "androidSdkInt")
  | "device.cpu.cores" => nullish (optChain (optChain (jsGet session "device") "cpu") "numCores")
  | "device.cpu.maxFreq" => nullish (optChain (optChain (jsGet session "device") "cpu") "maxFreq")
  | "device.cpu.minFreq" => nullish (optChain (optChain (jsGet session "device") "cpu") "minFreq")
  | "device.baseband" => nullish (optChain (jsGet session "device") "baseband")
  | "device.gpu.vendor" => nullish (optChain (optChain (jsGet session "device") "gpu") "vendor")
  | "device.gpu.renderer" => nullish (optChain (optChain (jsGet session "device") "gpu") "renderer")
  | "network.received" => nullish (optChain (jsGet session "networkAppUsage") "appTotalDataReceived")
  | "network.sent" => nullish (optChain (jsGet session "networkAppUsage") "appTotalDataSent")
  | "session.duration" => nullish (jsGet session "timePlayed")
  | "session.timestamp" => nullish (jsGet session "sessionDate")
  | "session.timePushed" => nullish (jsGet session "timePushed")
  | "session.isActive" => if jsTruthy (jsGet session "isActive") then .num 1 else .num 0
  | "session.isCharging" => if jsTruthy (jsGet session "isCharging") then .num 1 else .num 0
  | "session.date" => nullish (jsGet session "sessionDate")
  | "session.id" => nullish (jsGet session "id")
  | "session.uuid" => nullish (jsGet session "uuid")
  | "session.recordedBy" => nullish (optChain (jsGet session "user") "userPlayAccount")
  | "session.dataSet" => nullish (optChain (jsGet session "user") "dataSet")
  | "tags.githash" => nullish (optChain (jsGet session "tags") "githash")
  | "tags.injected" => nullish (optChain (jsGet session "tags") "injected")
  | _ => getNestedProperty session field

/-- `ValidationRule` of `src/types/validation.ts`.  `operator` and
`condition` are kept as strings (their TypeScript union types are
erased at runtime), and `value` is an arbitrary runtime value. -/
structure ValidationRule where
  id : String
  name : String
  field : String
  operator : String
  condition : String
  value : JsValue
  enabled : Bool
  description : String
deriving Repr

/-- One per-rule outcome entry of a `ValidationResult`. -/
structure RuleResult where
  ruleId : String
  ruleName : String
  passed : Bool
  field : String
  operator : String
  expectedCondition : String
  expectedValue : JsValue
  actualValue : JsValue
  description : String
deriving Repr

/-- `ValidationResult` of `src/types/validation.ts`. -/
structure ValidationResult where
  sessionId : JsValue
  appName : JsValue
  deviceModel : JsValue
  rules : List RuleResult
  overallResult : String
deriving Repr

/-- The `rule.operator === 'string'` branch of `validateRule`: both
sides coerced with `String(...)`, then a switch on the condition whose
default case (which also receives `exists` and `notExists`) returns
`false`; `matches` catches the `RegExp` constructor throw as a failed
match. -/
def stringBranch (p : JsPrims) (value : JsValue) (rule : ValidationRule) : Bool :=
  let stringValue := jsToString p value
  let targetValue := jsToString p rule.value
  match rule.condition with
  | "equals" => stringValue == targetValue
  | "notEquals" => stringValue != targetValue
  | "contains" => jsIncludes stringValue targetValue
  | "notContains" => !jsIncludes stringValue targetValue
  | "startsWith" => stringValue.startsWith targetValue
  | "endsWith" => stringValue.endsWith targetValue
  | "isEmpty" => stringValue == ""
  | "isNotEmpty" => stringValue != ""
  | "matches" =>
    match p.regexCompile targetValue with
    | none => false
    | some test => test stringValue
  | _ => false

/-- The `rule.operator === 'number'` switch of `validateRule`, reached
with both coercions already non-`NaN`.  The `between` case destructures
`rule.value` as a tuple, which throws a `TypeError` (`Except.error ()`)
when the value is not iterable; the comparisons against the tuple
components follow JavaScript relational semantics. -/
def numberBranch (p : JsPrims) (numValue : ℚ) (targetValue : ℚ)
    (rule : ValidationRule) : Except Unit Bool :=
  match rule.condition with
  | ">" => .ok (decide (targetValue < numValue))
  | ">=" => .ok (decide (targetValue ≤ numValue))
  | "<" => .ok (decide (numValue < targetValue))
  | "<=" => .ok (decide (numValue ≤ targetValue))
  | "==" => .ok (decide (numValue = targetValue))
  | "!=" => .ok (decide (numValue ≠ targetValue))
  | "between" =>
    match jsDestructure2 rule.value with
    | none => .error ()
    | some (mn, mx) =>
      .ok (jsLeB p mn (.num numValue) && jsLeB p (.num numValue) mx)
  | _ => .ok false

/-- The `rule.operator === 'boolean'` switch of `validateRule`: both
sides coerced with `Boolean(...)`. -/
def boolBranch (value : JsValue) (rule : ValidationRule) : Bool :=
  let boolValue := jsTruthy value
  let targetValue := jsTruthy rule.value
  match rule.condition with
  | "isTrue" => boolValue == true
  | "isFalse" => boolValue == false
  | "equals" => boolValue == targetValue
  | _ => false

/-- The `rule.operator === 'date'` branch of `validateRule`.  The whole
branch sits in a `try`/`catch` returning `false`, so the tuple
destructuring of `between` cannot escape; invalid parses (`NaN`
timestamps) fail the rule; `on` compares local calendar dates. -/
def dateBranch (p : JsPrims) (value : JsValue) (rule : ValidationRule) : Bool :=
  match p.dateFrom value, p.dateFrom rule.value with
  | some dateValue, some targetDate =>
    match rule.condition with
    | "before" => decide (dateValue < targetDate)
    | "after" => decide (dateValue > targetDate)
    | "on" => decide (p.civil dateValue = p.civil targetDate)
    | "between" =>
      match jsDestructure2 rule.value with
      | none => false
      | some (startDate, endDate) =>
        (match p.dateFrom startDate with
         | some s => decide (s ≤ dateValue)
         | none => false) &&
        (match p.dateFrom endDate with
         | some e => decide (dateValue ≤ e)
         | none => false)
    | _ => false
  | _, _ => false

/-- `validateRule(session, rule)` of `src/utils/validationUtils.ts`:
the string-operator branch first, then the `exists`/`notExists`
checks, then the missing-value guard, then the number, boolean and
date dispatches; anything else returns `false`.  `Except.error ()` is
the `TypeError` escaping from the number-kind `between` destructuring,
the only statement not guarded by a `try`/`catch`. -/
def validateRule (p : JsPrims) (session : JsValue) (rule : ValidationRule) :
    Except Unit Bool :=
  let value := getFieldValue p session rule.field
  if rule.operator == "string" then
    .ok (stringBranch p value rule)
  else if rule.condition == "exists" then
    .ok (!isMissing value)
  else if rule.condition == "notExists" then
    .ok (isMissing value)
  else if isMissing value then
    .ok false
  else if rule.operator == "number" then
    match toNumber p value, toNumber p rule.value with
    | some numValue, some targetValue => numberBranch p numValue targetValue rule
    | _, _ => .ok false
  else if rule.operator == "boolean" then
    .ok (boolBranch value rule)
  else if rule.operator == "date" then
    .ok (dateBranch p value rule)
  else
    .ok false

/-- `getDefaultRules()` of `src/utils/validationUtils.ts`. -/
def getDefaultRules : List ValidationRule :=
  [ { id := "1", name := "Minimum FPS Check", field := "fps.min",
      operator := "number", condition := ">=", value := .num 0,
      enabled := true, description := "FPS should never be negative" },
    { id := "2", name := "FPS Stability Check", field := "fps.stability",
      operator := "number", condition := "between",
      value := .arr [.num 0, .num 100], enabled := true,
      description := "FPS stability should be between 0% and 100%" },
    { id := "3", name := "CPU Usage Range", field := "cpu.avg",
      operator := "number", condition := "between",
      value := .arr [.num 0, .num 100], enabled := true,
      description := "Average CPU usage should be between 0% and 100%" },
    { id := "4", name := "Battery Level Range", field := "battery.first",
      operator := "number", condition := "between",
      value := .arr [.num 0, .num 100], enabled := true,
      description := "Battery level should be between 0% and 100%" },
    { id := "5", name := "Session Duration Check", field := "session.duration",
      operator := "number", condition := ">", value := .num 0,
      enabled := true, description := "Session duration should be positive" },
    { id := "6", name := "Memory Usage Range", field := "androidMemory.avg",
      operator := "number", condition := ">=", value := .num 0,
      enabled := true, description := "Memory usage should not be negative" },
    { id := "7", name := "Device Model Validation", field := "device.model",
      operator := "string", condition := "exists", value := .str "",
      enabled := true, description := "Device model must be present" },
    { id := "8", name := "Package Name Check", field := "app.packageName",
      operator := "string", condition := "contains", value := .str ".",
      enabled := true, description := "Package name should contain a dot" },
    { id := "9", name := "Session ID Format", field := "session.id",
      operator := "string", condition := "matches",
      value := .str "^[a-zA-Z0-9-]+$", enabled := true,
      description := "Session ID should only contain alphanumeric characters and hyphens" },
    { id := "10", name := "Network Data Check", field := "network.received",
      operator := "number", condition := "exists", value := .num 0,
      enabled := true, description := "Network data received should be available" } ]

/-- The `x || 'Unknown'` fallback used for the denormalized display
fields. -/
def orUnknown (v : JsValue) : JsValue :=
  if jsTruthy v then v else .str "Unknown"

/-- One per-rule entry of `validateSessions` in the `Validation`
component of the validation page: the rule evaluated with
`validateRule` (an exception propagates, there is no `try`), the audit
`actualValue` read as
`session[rule.field] || getNestedProperty(session, rule.field)`. -/
def vsEntry (p : JsPrims) (session : JsValue) (rule : ValidationRule) :
    Except Unit RuleResult := do
  let passed ← validateRule p session rule
  let direct := jsGet session rule.field
  let fieldValue := if jsTruthy direct then direct
                    else getNestedProperty session rule.field
  pure { ruleId := rule.id, ruleName := rule.name, passed := passed,
         field := rule.field, operator := rule.operator,
         expectedCondition := rule.condition, expectedValue := rule.value,
         actualValue := fieldValue, description := rule.description }

/-- The per-rule entry list built by `validateSessions`: rules
filtered to `enabled == true`, then mapped through `vsEntry`. -/
def validateSessionsRuleResults (p : JsPrims) (session : JsValue)
    (rules : List ValidationRule) : Except Unit (List RuleResult) :=
  (rules.filter (fun r => r.enabled)).mapM (vsEntry p session)

/-- The result computation of `validateSessions` (the
`selectedSessions.map` body): a selected id with no matching session
yields the `Unknown`/`fail` placeholder record with an empty rule
list; a matched session gets the filtered rule outcomes and
`overallResult = "pass"` iff every outcome passed. -/
def validateSessionsCore (p : JsPrims) (selectedSessions : List String)
    (sessions : List JsValue) (rules : List ValidationRule) :
    Except Unit (List ValidationResult) :=
  selectedSessions.mapM (fun sessionId =>
    match sessions.find? (fun s => jsStrictEqStr (jsGet s "id") sessionId) with
    | none =>
      pure { sessionId := .str sessionId, appName := .str "Unknown",
             deviceModel := .str "Unknown", rules := [],
             overallResult := "fail" }
    | some session => do
      let ruleResults ← validateSessionsRuleResults p session rules
      pure { sessionId := .str sessionId,
             appName := orUnknown (optChain (jsGet session "app") "name"),
             deviceModel := orUnknown (optChain (jsGet session "device") "model"),
             rules := ruleResults,
             overallResult :=
               if ruleResults.all (fun r => r.passed) then "pass" else "fail" })

/-- The full `validateSessions` handler, including its early-return
guards: no selected session, or no enabled rule, aborts the run
(`none`) without producing any results. -/
def validateSessionsFull (p : JsPrims) (selectedSessions : List String)
    (sessions : List JsValue) (rules : List ValidationRule) :
    Option (Except Unit (List ValidationResult)) :=
  if selectedSessions.length = 0 then none
  else if (rules.filter (fun r => r.enabled)).length = 0 then none
  else some (validateSessionsCore p selectedSessions sessions rules)

/-- One per-rule entry of `handleRunValidation` in the
`ValidationPage` component: `passed` is forced to `true` for a
disabled rule instead of the rule being skipped, and the audit value
is `session[rule.field]`. -/
def hrEntry (p : JsPrims) (session : JsValue) (rule : ValidationRule) :
    Except Unit RuleResult := do
  let passed ← if rule.enabled then validateRule p session rule
               else pure true
  pure { ruleId := rule.id, ruleName := rule.name, passed := passed,
         field := rule.field, operator := rule.operator,
         expectedCondition := rule.condition, expectedValue := rule.value,
         actualValue := jsGet session rule.field,
         description := rule.description }

/-- The per-rule entry list built by `handleRunValidation`: it maps
over ALL rules, disabled ones included, through `hrEntry`. -/
def handleRunRuleResults (p : JsPrims) (session : JsValue)
    (rules : List ValidationRule) : Except Unit (List RuleResult) :=
  rules.mapM (hrEntry p session)

/-- One per-session result of `handleRunValidation`. -/
def handleRunSession (p : JsPrims) (rules : List ValidationRule)
    (session : JsValue) : Except Unit ValidationResult := do
  let ruleResults ← handleRunRuleResults p session rules
  pure { sessionId := jsGet session "id",
         appName := jsGet session "appName",
         deviceModel := jsGet session "deviceModel",
         rules := ruleResults,
         overallResult :=
           if ruleResults.all (fun r => r.passed) then "pass" else "fail" }

/-- The date-range filter of `handleRunValidation`: with either bound
unset every session passes; otherwise `new Date(session.startTime)`
must fall inclusively between the bounds (an invalid date fails). -/
def dateRangeFilter (p : JsPrims) (fromB toB : Option ℚ)
    (sessions : List JsValue) : List JsValue :=
  sessions.filter (fun session =>
    match fromB, toB with
    | some f, some t =>
      match p.dateFrom (jsGet session "startTime") with
      | some d => decide (f ≤ d) && decide (d ≤ t)
      | none => false
    | _, _ => true)

/-- The result computation of `handleRunValidation` (after its
empty-session guards): date-filtered sessions, each mapped through
`handleRunSession`. -/
def handleRunValidationCore (p : JsPrims) (fromB toB : Option ℚ)
    (sessions : List JsValue) (rules : List ValidationRule) :
    Except Unit (List ValidationResult) :=
  (dateRangeFilter p fromB toB sessions).mapM (handleRunSession p rules)

/-- A `mapM` over the `Except` monad succeeds with `l2` exactly when
`f` succeeds pointwise along the two lists. -/
theorem exceptMapM_ok {α β : Type} (f : α → Except Unit β) :
    ∀ (l : List α) (l2 : List β),
      l.mapM f = Except.ok l2 ↔
        List.Forall₂ (fun a b => f a = Except.ok b) l l2 := by
  intro l
  induction l with
  | nil =>
    intro l2
    constructor
    · intro h
      simp only [List.mapM_nil, pure, Except.pure] at h
      cases h
      exact List.Forall₂.nil
    · intro h
      cases h
      rfl
  | cons a as ih =>
    intro l2
    rw [List.mapM_cons]
    constructor
    · intro h
      cases hfa : f a with
      | error e =>
        rw [hfa] at h
        simp [Bind.bind, Except.bind] at h
      | ok b =>
        rw [hfa] at h
        cases hmm : as.mapM f with
        | error e =>
          rw [hmm] at h
          simp [Bind.bind, Except.bind] at h
        | ok bs =>
          rw [hmm] at h
          simp only [Bind.bind, Except.bind, pure, Except.pure] at h
          cases h
          exact List.Forall₂.cons hfa ((ih bs).mp hmm)
    · intro h
      cases h with
      | cons hab htail =>
        rw [hab, (ih _).mpr htail]
        simp [Bind.bind, Except.bind, pure, Except.pure]

/-! Concrete sessions rules and result records used by the closed
theorems below. -/

/-- A session record with no fields at all. -/
def emptySession : JsValue := .obj []

/-- A session whose only metric is an FPS-stability of 50. -/
def c1session : JsValue := .obj [("fpsStability", .num 50)]

/-- Default rule 2 of `getDefaultRules`: `fps.stability between [0, 100]`. -/
def c1rule : ValidationRule :=
  { id := "2", name := "FPS Stability Check", field := "fps.stability",
    operator := "number", condition := "between",
    value := .arr [.num 0, .num 100], enabled := true,
    description := "FPS stability should be between 0% and 100%" }

/-- A string-kind rule with a non-existence condition, aimed at a field
the session lacks. -/
def c2rule : ValidationRule :=
  { id := "c2", name := "model differs", field := "device.model",
    operator := "string", condition := "notEquals", value := .str "Pixel",
    enabled := true, description := "" }

/-- A number-kind rule with a non-existence condition, used to witness
the amended missing-field strictness. -/
def c2wRule : ValidationRule :=
  { id := "c2w", name := "fps positive", field := "fps.min",
    operator := "number", condition := ">", value := .num 0,
    enabled := true, description := "" }

/-- A session that does carry a device model. -/
def c3session : JsValue := .obj [("device", .obj [("model", .str "Pixel 7")])]

/-- Default rule 7 of `getDefaultRules`: string-kind `exists` on
`device.model`, described as `Device model must be present`. -/
def c3rule : ValidationRule :=
  { id := "7", name := "Device Model Validation", field := "device.model",
    operator := "string", condition := "exists", value := .str "",
    enabled := true, description := "Device model must be present" }

/-- The `notExists` twin of `c3rule`. -/
def c3ruleNE : ValidationRule := { c3rule with condition := "notExists" }

/-- A session with both battery readings present, the last one 0. -/
def c4session : JsValue := .obj [("firstBat", .num 100), ("lastBat", .num 0)]

/-- A session with two nonzero battery readings. -/
def c4wSession : JsValue := .obj [("firstBat", .num 100), ("lastBat", .num 20)]

/-- A session lacking `firstBat` entirely. -/
def c4absSession : JsValue := .obj [("lastBat", .num 20)]

/-- A session carrying only its id. -/
def idSession : JsValue := .obj [("id", .str "s1")]

/-- A disabled rule. -/
def c6rule : ValidationRule :=
  { id := "d1", name := "disabled rule", field := "fps.min",
    operator := "number", condition := ">", value := .num 0,
    enabled := false, description := "" }

/-- The entry `handleRunValidation` emits for the disabled `c6rule`:
present in the result with `passed` forced to `true`. -/
def c6entry : RuleResult :=
  { ruleId := "d1", ruleName := "disabled rule", passed := true,
    field := "fps.min", operator := "number", expectedCondition := ">",
    expectedValue := .num 0, actualValue := .undefined, description := "" }

/-- The per-session result `handleRunValidation` builds over
`idSession` and the single disabled `c6rule`. -/
def c6result : ValidationResult :=
  { sessionId := .str "s1", appName := .undefined, deviceModel := .undefined,
    rules := [c6entry], overallResult := "pass" }

/-- An enabled rule used alongside `c6rule` in the C6 witness. -/
def c6wRuleE : ValidationRule :=
  { id := "e1", name := "enabled rule", field := "fps.min",
    operator := "number", condition := ">=", value := .num 0,
    enabled := true, description := "" }

/-- The single entry `validateSessions` emits for
`[c6wRuleE, c6rule]` over `idSession`: only the enabled rule appears. -/
def c6wEntry : RuleResult :=
  { ruleId := "e1", ruleName := "enabled rule", passed := false,
    field := "fps.min", operator := "number", expectedCondition := ">=",
    expectedValue := .num 0, actualValue := .null, description := "" }

/-- A string-kind `matches` rule whose value is an unterminated
character class, i.e. an invalid regular expression. -/
def c7rule : ValidationRule :=
  { id := "c7", name := "bad regex", field := "session.id",
    operator := "string", condition := "matches", value := .str "[",
    enabled := true, description := "" }

/-- A session with a plain FPS minimum. -/
def c8session : JsValue := .obj [("fpsMin", .num 10)]

/-- A malformed number-kind `between` rule whose value is a scalar
rather than a tuple. -/
def c8rule : ValidationRule :=
  { id := "c8", name := "bad between", field := "fps.min",
    operator := "number", condition := "between", value := .num 5,
    enabled := true, description := "" }

/-- A well-formed number-kind `between` rule, used to witness totality
outside the throwing configuration. -/
def c8wRule : ValidationRule :=
  { id := "c8w", name := "good between", field := "fps.min",
    operator := "number", condition := "between",
    value := .arr [.num 0, .num 100], enabled := true, description := "" }

/-- A string-kind `exists` rule on the coerced flag alias. -/
def c9rule : ValidationRule :=
  { id := "c9", name := "active exists", field := "session.isActive",
    operator := "string", condition := "exists", value := .str "",
    enabled := true, description := "" }

/-- A boolean-kind `exists` rule on the coerced flag alias, used to
witness the amended C9. -/
def c9wRule : ValidationRule :=
  { id := "c9w", name := "active exists", field := "session.isActive",
    operator := "boolean", condition := "exists", value := .bool true,
    enabled := true, description := "" }

/-- The `notExists` twin of `c9wRule`. -/
def c9wRuleNE : ValidationRule := { c9wRule with condition := "notExists" }

/-- The `notExists` twin of `c9rule`. -/
def c9ruleNE : ValidationRule := { c9rule with condition := "notExists" }

/-- C1.  The claim says a number-kind `between [a, b]` rule passes iff
the resolved value `x` satisfies `a ≤ x ≤ b`.  On the code the default
FPS-stability rule (`between [0, 100]`) fails on a session whose
stability is 50: `Number(rule.value)` coerces the tuple `[0, 100]` to
`NaN`, so the `isNaN` guard fails the rule before the `between` case
of the switch can run.  The code's own `between` branch and the rule's
own description state the intended inclusive-range semantics. -/
theorem c1_between_rule_always_fails :
    getDefaultRules.get? 1 = some c1rule ∧
    getFieldValue defaultPrims c1session "fps.stability" = JsValue.num 50 ∧
    c1rule.value = JsValue.arr [.num 0, .num 100] ∧
    ((0 : ℚ) ≤ 50 ∧ (50 : ℚ) ≤ 100) ∧
    validateRule defaultPrims c1session c1rule = Except.ok false :=
  ⟨rfl, rfl, rfl, by norm_num, rfl⟩

/-- C3 (code bug).  The claim says `exists` passes iff the value is
present, independently of the rule's kind.  For string-kind rules the
string branch runs before the existence checks and sends `exists` and
`notExists` to its default case, so both always fail: the code's own
default rule 7 (string-kind `exists` on `device.model`, "Device model
must be present") returns `false` even though the session carries a
device model, and its `notExists` twin fails as well, breaking the
claimed duality. -/
theorem c3_string_exists_never_passes :
    getDefaultRules.get? 6 = some c3rule ∧
    getFieldValue defaultPrims c3session "device.model" = JsValue.str "Pixel 7" ∧
    validateRule defaultPrims c3session c3rule = Except.ok false ∧
    validateRule defaultPrims c3session c3ruleNE = Except.ok false :=
  ⟨rfl, rfl, rfl, rfl⟩

/-- C2 (counterexample).  The claim says every non-existence condition
fails on a missing field regardless of kind.  A string-kind rule
coerces the missing value with `String(null) == "null"` before the
missing-value guard is reached, so `notEquals "Pixel"` on an absent
`device.model` passes. -/
theorem c2_string_rule_passes_on_missing :
    c2rule.operator = "string" ∧ c2rule.condition = "notEquals" ∧
    getFieldValue defaultPrims emptySession c2rule.field = JsValue.null ∧
    validateRule defaultPrims emptySession c2rule = Except.ok true :=
  ⟨rfl, rfl, rfl, rfl⟩

/-- C4 (counterexample).  The claim says `battery.drain` is computed
whenever both operands are present, including a 0 operand.  The code
tests `session.firstBat && session.lastBat`, a truthiness check, so a
present `lastBat == 0` yields `null` (MISSING) instead of the claimed
`100 - 0 = 100`. -/
theorem c4_zero_operand_yields_missing :
    jsGet c4session "firstBat" = JsValue.num 100 ∧
    jsGet c4session "lastBat" = JsValue.num 0 ∧
    getFieldValue defaultPrims c4session "battery.drain" = JsValue.null :=
  ⟨rfl, rfl, rfl⟩

/-- C6 (counterexample).  The claim says no emitted entry corresponds
to a disabled rule.  `handleRunValidation` maps over all rules and
emits an entry for the disabled `c6rule`, with `passed` forced to
`true` (which also makes the session overall-pass). -/
theorem c6_disabled_rule_emitted :
    c6rule.enabled = false ∧
    handleRunValidationCore defaultPrims none none [idSession] [c6rule] =
      Except.ok [c6result] ∧
    c6result.rules = [c6entry] ∧ c6entry.ruleId = c6rule.id ∧
    c6entry.passed = true :=
  ⟨rfl, rfl, rfl, rfl, rfl⟩

/-- C8 (counterexample).  The claim says the evaluator never raises.
A number-kind `between` rule whose value is the scalar `5` passes the
`isNaN` guard (`Number(5)` is finite) and then throws a `TypeError`
destructuring `const [min, max] = rule.value`, the one statement not
under a `try`. -/
theorem c8_scalar_between_throws :
    c8rule.operator = "number" ∧ c8rule.condition = "between" ∧
    validateRule defaultPrims c8session c8rule = Except.error () :=
  ⟨rfl, rfl, rfl⟩

/-- C9 (counterexample).  The claim says an `exists` rule on
`session.isActive` always passes.  The resolver does coerce the absent
flag to `0` (not MISSING), but a string-kind `exists` rule is captured
by the string branch's default case and fails anyway. -/
theorem c9_string_exists_on_flag_fails :
    getFieldValue defaultPrims emptySession "session.isActive" = JsValue.num 0 ∧
    c9rule.field = "session.isActive" ∧ c9rule.condition = "exists" ∧
    validateRule defaultPrims emptySession c9rule = Except.ok false :=
  ⟨rfl, rfl, rfl, rfl⟩

/-- The `Unknown`/`fail` placeholder that `validateSessions` emits for
a selected id with no matching session. -/
def c10result : ValidationResult :=
  { sessionId := .str "zz", appName := .str "Unknown",
    deviceModel := .str "Unknown", rules := [], overallResult := "fail" }

theorem jsStrictEqStr_iff (v : JsValue) (s : String) :
    jsStrictEqStr v s = true ↔ v = JsValue.str s := by
  cases v <;> simp [jsStrictEqStr]

theorem jsTruthy_false_of_isMissing (v : JsValue) (h : isMissing v = true) :
    jsTruthy v = false := by
  cases v <;> first | rfl | simp [isMissing] at h

theorem forall2_exists_of_mem {α β : Type} {R : α → β → Prop} :
    ∀ {l : List α} {l2 : List β}, List.Forall₂ R l l2 →
      ∀ a ∈ l, ∃ b ∈ l2, R a b := by
  intro l l2 h
  induction h with
  | nil => intro a ha; cases ha
  | cons hab htail ih =>
    intro a ha
    rcases List.mem_cons.mp ha with ha | ha
    · subst ha; exact ⟨_, List.mem_cons_self _ _, hab⟩
    · obtain ⟨b, hb, hr⟩ := ih a ha
      exact ⟨b, List.mem_cons_of_mem _ hb, hr⟩

theorem numberBranch_no_throw (p : JsPrims) (nv tv : ℚ) (rule : ValidationRule)
    (h : rule.condition ≠ "between" ∨ (jsDestructure2 rule.value).isSome = true) :
    ∃ b, numberBranch p nv tv rule = Except.ok b := by
  unfold numberBranch
  split
  · exact ⟨_, rfl⟩
  · exact ⟨_, rfl⟩
  · exact ⟨_, rfl⟩
  · exact ⟨_, rfl⟩
  · exact ⟨_, rfl⟩
  · exact ⟨_, rfl⟩
  · rename_i heq
    rcases h with h | h
    · exact absurd heq h
    · obtain ⟨pr, hpr⟩ := Option.isSome_iff_exists.mp h
      rw [hpr]
      obtain ⟨mn, mx⟩ := pr
      exact ⟨_, rfl⟩
  · exact ⟨_, rfl⟩

theorem vsEntry_ok_ruleId (p : JsPrims) (session : JsValue)
    (rule : ValidationRule) (e : RuleResult)
    (h : vsEntry p session rule = Except.ok e) : e.ruleId = rule.id := by
  unfold vsEntry at h
  cases hv : validateRule p session rule with
  | error u =>
    rw [hv] at h
    simp [Bind.bind, Except.bind] at h
  | ok b =>
    rw [hv] at h
    simp only [Bind.bind, Except.bind, pure, Except.pure, Except.ok.injEq] at h
    subst h
    rfl

theorem hrEntry_ok_spec (p : JsPrims) (session : JsValue)
    (rule : ValidationRule) (e : RuleResult)
    (h : hrEntry p session rule = Except.ok e) :
    e.ruleId = rule.id ∧ (rule.enabled = false → e.passed = true) := by
  unfold hrEntry at h
  cases hen : rule.enabled
  case false =>
    rw [hen] at h
    simp only [Bool.false_eq_true, if_false, Bind.bind, Except.bind, pure,
      Except.pure, Except.ok.injEq] at h
    subst h
    exact ⟨rfl, fun _ => rfl⟩
  case true =>
    rw [hen] at h
    simp only [if_true, Bind.bind, Except.bind] at h
    cases hv : validateRule p session rule with
    | error u => rw [hv] at h; exact Except.noConfusion h
    | ok b =>
      rw [hv] at h
      simp only [pure, Except.pure, Except.ok.injEq] at h
      subst h
      exact ⟨rfl, fun hf => Bool.noConfusion hf⟩

theorem mapM_vsEntry_ids (p : JsPrims) (session : JsValue) :
    ∀ (l : List ValidationRule) (entries : List RuleResult),
      l.mapM (vsEntry p session) = Except.ok entries →
      entries.map (fun e => e.ruleId) = l.map (fun r => r.id) := by
  intro l entries h
  have h2 := (exceptMapM_ok (vsEntry p session) l entries).mp h
  clear h
  induction h2 with
  | nil => rfl
  | cons hab htail ih =>
    simp only [List.map_cons, ih, List.cons.injEq]
    exact ⟨vsEntry_ok_ruleId _ _ _ _ hab, trivial⟩

/-- C2 (amended).  For every rule of non-string kind whose condition is
not an existence condition, a field resolving to MISSING
(null/undefined) fails the rule.  String-kind rules are excluded: they
coerce the missing value to the string `"null"`/`"undefined"` first
(see the counterexample). -/
theorem c2_missing_field_fails_nonstring (p : JsPrims) (session : JsValue)
    (rule : ValidationRule)
    (hop : rule.operator ≠ "string")
    (h1 : rule.condition ≠ "exists") (h2 : rule.condition ≠ "notExists")
    (_h3 : rule.condition ≠ "not_null")
    (hval : isMissing (getFieldValue p session rule.field) = true) :
    validateRule p session rule = Except.ok false := by
  have ho : (rule.operator == "string") = false := beq_eq_false_iff_ne.mpr hop
  have hc1 : (rule.condition == "exists") = false := beq_eq_false_iff_ne.mpr h1
  have hc2 : (rule.condition == "notExists") = false := beq_eq_false_iff_ne.mpr h2
  simp [validateRule, ho, hc1, hc2, hval]

/-- C2 witness: a number-kind `>` rule on a session lacking `fps.min`
fails. -/
theorem c2_missing_field_fails_witness :
    validateRule defaultPrims emptySession c2wRule = Except.ok false :=
  c2_missing_field_fails_nonstring defaultPrims emptySession c2wRule
    (by decide) (by decide) (by decide) (by decide) rfl

/-- C4 (amended).  `battery.drain` is `firstBat - lastBat` exactly when
both operands are truthy: with both operands present as numbers the
drain is their difference when both are nonzero and MISSING when
either equals 0, and with either operand absent (null/undefined) the
drain is MISSING, because the source guards with the truthiness test
`session.firstBat && session.lastBat`. -/
theorem c4_drain_requires_truthy_operands (p : JsPrims) (session : JsValue) :
    (∀ a b : ℚ, jsGet session "firstBat" = JsValue.num a →
      jsGet session "lastBat" = JsValue.num b →
      getFieldValue p session "battery.drain" =
        (if a ≠ 0 ∧ b ≠ 0 then JsValue.num (a - b) else JsValue.null)) ∧
    (isMissing (jsGet session "firstBat") = true ∨
      isMissing (jsGet session "lastBat") = true →
      getFieldValue p session "battery.drain" = JsValue.null) := by
  have hred : getFieldValue p session "battery.drain" =
      (if jsTruthy (jsGet session "firstBat") && jsTruthy (jsGet session "lastBat")
       then jsSub p (jsGet session "firstBat") (jsGet session "lastBat")
       else .null) := rfl
  constructor
  · intro a b ha hb
    rw [hred, ha, hb]
    by_cases h0 : a = 0 <;> by_cases h1 : b = 0 <;>
      simp [jsTruthy, jsSub, toNumber, h0, h1]
  · rintro (h | h)
    · simp [hred, jsTruthy_false_of_isMissing _ h]
    · simp [hred, jsTruthy_false_of_isMissing _ h]

/-- C4 witness: nonzero readings 100 and 20 give drain 80, while an
absent `firstBat` gives MISSING. -/
theorem c4_drain_witness :
    getFieldValue defaultPrims c4wSession "battery.drain" = JsValue.num 80 ∧
    getFieldValue defaultPrims c4absSession "battery.drain" = JsValue.null := by
  constructor
  · have := (c4_drain_requires_truthy_operands defaultPrims c4wSession).1
      100 20 rfl rfl
    norm_num at this
    exact this
  · exact (c4_drain_requires_truthy_operands defaultPrims c4absSession).2
      (Or.inl rfl)

/-- C5.  Running the validation loop over one matched session with no
enabled rule yields exactly one `ValidationResult` with an empty
`rules` list and the vacuous `overallResult = "pass"` (`[].every` is
`true`). -/
theorem c5_vacuous_pass (p : JsPrims) (sid : String) (session : JsValue)
    (rules : List ValidationRule)
    (hid : jsGet session "id" = JsValue.str sid)
    (hrules : rules.filter (fun r => r.enabled) = []) :
    validateSessionsCore p [sid] [session] rules =
      Except.ok [{ sessionId := .str sid,
                   appName := orUnknown (optChain (jsGet session "app") "name"),
                   deviceModel := orUnknown (optChain (jsGet session "device") "model"),
                   rules := [],
                   overallResult := "pass" }] := by
  have hfind : [session].find? (fun s => jsStrictEqStr (jsGet s "id") sid) =
      some session := by
    simp [List.find?, jsStrictEqStr, hid]
  have hrr : validateSessionsRuleResults p session rules = Except.ok [] := by
    rw [validateSessionsRuleResults, hrules, List.mapM_nil]
    rfl
  simp only [validateSessionsCore, List.mapM_cons, List.mapM_nil, hfind, hrr,
    Bind.bind, Except.bind, pure, Except.pure, List.all_nil, if_true]

/-- C5 witness: the concrete one-session, zero-rule run. -/
theorem c5_vacuous_pass_witness :
    validateSessionsCore defaultPrims ["s1"] [idSession] [] =
      Except.ok [{ sessionId := .str "s1", appName := .str "Unknown",
                   deviceModel := .str "Unknown", rules := [],
                   overallResult := "pass" }] :=
  c5_vacuous_pass defaultPrims "s1" idSession [] rfl rfl

/-- C6 (amended).  `validateSessions` emits per-rule entries exactly
for the enabled rules (in order); `handleRunValidation` instead emits
an entry for every rule, disabled ones included, but forces
`passed = true` for disabled rules without evaluating them.  Neither
loop modifies the rule set, which both take as an immutable input. -/
theorem c6_amended_emission :
    (∀ (p : JsPrims) (session : JsValue) (rules : List ValidationRule)
       (entries : List RuleResult),
        validateSessionsRuleResults p session rules = Except.ok entries →
        entries.map (fun e => e.ruleId) =
          (rules.filter (fun r => r.enabled)).map (fun r => r.id)) ∧
    (∀ (p : JsPrims) (session : JsValue) (rules : List ValidationRule)
       (entries : List RuleResult),
        handleRunRuleResults p session rules = Except.ok entries →
        List.Forall₂ (fun (r : ValidationRule) (e : RuleResult) =>
          e.ruleId = r.id ∧ (r.enabled = false → e.passed = true))
          rules entries) := by
  constructor
  · intro p session rules entries h
    exact mapM_vsEntry_ids p session _ entries h
  · intro p session rules entries h
    rw [handleRunRuleResults] at h
    have h2 := (exceptMapM_ok (hrEntry p session) rules entries).mp h
    clear h
    induction h2 with
    | nil => exact List.Forall₂.nil
    | cons hab htail ih =>
      exact List.Forall₂.cons (hrEntry_ok_spec _ _ _ _ hab) ih

/-- C6 witness: over one enabled and one disabled rule,
`validateSessions` emits exactly the enabled rule's entry. -/
theorem c6_amended_emission_witness :
    validateSessionsRuleResults defaultPrims idSession [c6wRuleE, c6rule] =
      Except.ok [c6wEntry] ∧
    [c6wEntry].map (fun e => e.ruleId) =
      ([c6wRuleE, c6rule].filter (fun r => r.enabled)).map (fun r => r.id) :=
  ⟨rfl, c6_amended_emission.1 defaultPrims idSession [c6wRuleE, c6rule]
    [c6wEntry] rfl⟩

/-- C7.  A string-kind `matches` rule whose value fails to compile as a
regular expression evaluates to `passed == false` without throwing:
the `RegExp` constructor's throw is caught and returned as a failed
match. -/
theorem c7_invalid_regex_fails (p : JsPrims) (session : JsValue)
    (rule : ValidationRule)
    (hop : rule.operator = "string") (hc : rule.condition = "matches")
    (hre : p.regexCompile (jsToString p rule.value) = none) :
    validateRule p session rule = Except.ok false := by
  have ho : (rule.operator == "string") = true := beq_iff_eq.mpr hop
  simp [validateRule, ho, stringBranch, hc, hre]

/-- C7 witness: the unterminated character class `[` never compiles. -/
theorem c7_invalid_regex_witness :
    validateRule defaultPrims emptySession c7rule = Except.ok false :=
  c7_invalid_regex_fails defaultPrims emptySession c7rule rfl rfl rfl

/-- C8 (amended).  The resolver is total by construction, and the
evaluator returns a verdict for every input except the one throwing
configuration: a number-kind `between` rule whose value is not
iterable (see the counterexample).  Everywhere else — every other
operator, every other condition, and `between` with an
array or string value — evaluation yields `Except.ok`. -/
theorem c8_no_throw_outside_bad_between (p : JsPrims) (session : JsValue)
    (rule : ValidationRule)
    (h : rule.operator ≠ "number" ∨ rule.condition ≠ "between" ∨
         (jsDestructure2 rule.value).isSome = true) :
    ∃ b, validateRule p session rule = Except.ok b := by
  cases hres : validateRule p session rule with
  | ok b => exact ⟨b, rfl⟩
  | error u =>
    exfalso
    cases h1 : rule.operator == "string" <;> rw [validateRule, h1] at hres
    case true => simp at hres
    case false =>
      cases h2 : rule.condition == "exists" <;> rw [h2] at hres
      case true => simp at hres
      case false =>
        cases h3 : rule.condition == "notExists" <;> rw [h3] at hres
        case true => simp at hres
        case false =>
          cases h4 : isMissing (getFieldValue p session rule.field) <;>
            rw [h4] at hres
          case true => simp at hres
          case false =>
            cases h5 : rule.operator == "number" <;> rw [h5] at hres
            case false =>
              cases h6 : rule.operator == "boolean" <;> rw [h6] at hres
              case true => simp at hres
              case false =>
                cases h7 : rule.operator == "date" <;> rw [h7] at hres
                case true => simp at hres
                case false => simp at hres
            case true =>
              have hop : rule.operator = "number" := beq_iff_eq.mp h5
              have h' : rule.condition ≠ "between" ∨
                  (jsDestructure2 rule.value).isSome = true := by
                rcases h with h | h | h
                · exact absurd hop h
                · exact Or.inl h
                · exact Or.inr h
              cases hv : toNumber p (getFieldValue p session rule.field) <;>
                rw [hv] at hres
              case none =>
                cases ht : toNumber p rule.value <;> simp at hres
              case some nv =>
                cases ht : toNumber p rule.value <;> rw [ht] at hres
                case none => simp at hres
                case some tv =>
                  obtain ⟨b, hb⟩ := numberBranch_no_throw p nv tv rule h'
                  simp at hres
                  rw [hb] at hres
                  exact Except.noConfusion hres

/-- C8 witness: a well-formed `between` rule with a tuple value
evaluates without throwing. -/
theorem c8_no_throw_witness :
    ∃ b, validateRule defaultPrims c8session c8wRule = Except.ok b :=
  c8_no_throw_outside_bad_between defaultPrims c8session c8wRule
    (Or.inr (Or.inr rfl))

/-- C9 (amended).  The flag aliases `session.isActive` and
`session.isCharging` never resolve to MISSING: the resolver returns
the number 1 when the underlying flag is truthy and 0 otherwise,
including when the flag is entirely absent.  Consequently, for rules
of non-string kind, `exists` on these paths always passes and
`notExists` always fails; for string-kind rules both existence
conditions always fail, because the string branch precedes the
existence checks and its default case swallows them. -/
theorem c9_flag_alias_behaviour (p : JsPrims) (session : JsValue)
    (rule : ValidationRule) (flag : String)
    (hf : (rule.field = "session.isActive" ∧ flag = "isActive") ∨
          (rule.field = "session.isCharging" ∧ flag = "isCharging")) :
    getFieldValue p session rule.field =
      JsValue.num (if jsTruthy (jsGet session flag) then 1 else 0) ∧
    (rule.operator ≠ "string" →
      (rule.condition = "exists" → validateRule p session rule = Except.ok true) ∧
      (rule.condition = "notExists" → validateRule p session rule = Except.ok false)) ∧
    (rule.operator = "string" →
      rule.condition = "exists" ∨ rule.condition = "notExists" →
      validateRule p session rule = Except.ok false) := by
  have hval : getFieldValue p session rule.field =
      JsValue.num (if jsTruthy (jsGet session flag) then 1 else 0) := by
    rcases hf with ⟨hf, hfl⟩ | ⟨hf, hfl⟩ <;> subst hfl <;> rw [hf] <;>
      rw [apply_ite JsValue.num] <;> rfl
  refine ⟨hval, fun hop => ?_, fun hop hc => ?_⟩
  · have hmiss : isMissing (getFieldValue p session rule.field) = false := by
      rw [hval]; rfl
    have ho : (rule.operator == "string") = false := beq_eq_false_iff_ne.mpr hop
    constructor
    · intro hc
      have hc1 : (rule.condition == "exists") = true := beq_iff_eq.mpr hc
      simp [validateRule, ho, hc1, hmiss]
    · intro hc
      have hc2 : (rule.condition == "notExists") = true := beq_iff_eq.mpr hc
      have hcne : (rule.condition == "exists") = false := by
        rw [hc]; decide
      simp [validateRule, ho, hcne, hc2, hmiss]
  · have ho : (rule.operator == "string") = true := beq_iff_eq.mpr hop
    rcases hc with hc | hc <;> simp [validateRule, ho, stringBranch, hc]

/-- C9 witness: over the empty session the resolver yields 0 for the
absent flag, a boolean-kind `exists` rule passes, its `notExists` twin
fails, and both string-kind existence rules fail. -/
theorem c9_flag_alias_witness :
    getFieldValue defaultPrims emptySession "session.isActive" = JsValue.num 0 ∧
    validateRule defaultPrims emptySession c9wRule = Except.ok true ∧
    validateRule defaultPrims emptySession c9wRuleNE = Except.ok false ∧
    validateRule defaultPrims emptySession c9rule = Except.ok false ∧
    validateRule defaultPrims emptySession c9ruleNE = Except.ok false :=
  ⟨(c9_flag_alias_behaviour defaultPrims emptySession c9wRule "isActive"
      (Or.inl ⟨rfl, rfl⟩)).1,
   ((c9_flag_alias_behaviour defaultPrims emptySession c9wRule "isActive"
      (Or.inl ⟨rfl, rfl⟩)).2.1 (by decide)).1 rfl,
   ((c9_flag_alias_behaviour defaultPrims emptySession c9wRuleNE "isActive"
      (Or.inl ⟨rfl, rfl⟩)).2.1 (by decide)).2 rfl,
   (c9_flag_alias_behaviour defaultPrims emptySession c9rule "isActive"
      (Or.inl ⟨rfl, rfl⟩)).2.2 rfl (Or.inl rfl),
   (c9_flag_alias_behaviour defaultPrims emptySession c9ruleNE "isActive"
      (Or.inl ⟨rfl, rfl⟩)).2.2 rfl (Or.inr rfl)⟩

/-- C10.  A selected session id matching no session in the provider
list still yields a `ValidationResult`: the placeholder with `appName`
and `deviceModel` set to `Unknown`, an empty `rules` list, and
`overallResult = "fail"` (not the vacuous pass). -/
theorem c10_unknown_session_placeholder (p : JsPrims) (ids : List String)
    (sid : String) (sessions : List JsValue) (rules : List ValidationRule)
    (results : List ValidationResult)
    (hok : validateSessionsCore p ids sessions rules = Except.ok results)
    (hmem : sid ∈ ids)
    (hnone : ∀ s ∈ sessions, jsGet s "id" ≠ JsValue.str sid) :
    ({ sessionId := .str sid, appName := .str "Unknown",
       deviceModel := .str "Unknown", rules := [],
       overallResult := "fail" } : ValidationResult) ∈ results := by
  rw [validateSessionsCore] at hok
  have h2 := (exceptMapM_ok _ ids results).mp hok
  obtain ⟨res, hres_mem, hres⟩ := forall2_exists_of_mem h2 sid hmem
  have hfind : sessions.find? (fun s => jsStrictEqStr (jsGet s "id") sid) =
      none :=
    List.find?_eq_none.mpr
      (fun s hs hcontra => hnone s hs ((jsStrictEqStr_iff _ _).mp hcontra))
  rw [hfind] at hres
  simp only [pure, Except.pure, Except.ok.injEq] at hres
  subst hres
  exact hres_mem

/-- C10 witness: selecting the absent id `zz` against a one-session
provider list. -/
theorem c10_unknown_session_witness :
    validateSessionsCore defaultPrims ["zz"] [idSession] [] =
      Except.ok [c10result] ∧ c10result ∈ [c10result] :=
  ⟨rfl,
   c10_unknown_session_placeholder defaultPrims ["zz"] "zz" [idSession] []
     [c10result] rfl (List.mem_singleton.mpr rfl)
     (by
       intro s hs h
       rw [List.mem_singleton] at hs
       subst hs
       have h' : JsValue.str "s1" = JsValue.str "zz" := h
       simp at h')⟩
